import Mathlib

/-!
Shallow embedding of `src/code/run_capsule.py` from
`aind-ephys-hybrid-job-dispatch`.

The script discovers `recording.zarr` folders under a data root, checks for a
`sorting.zarr` sibling, optionally subsamples the discovered folders with a
seed-0 numpy generator, optionally truncates recording and ground-truth
sorting in debug mode, and writes per-pair job descriptor files.

Modelling conventions:
* Python floats are modelled as `ℚ`; Python ints as `ℤ`.
* The external domain library (spikeinterface) is modelled structurally:
  a loaded recording is either a base recording (with sampling frequency,
  number of samples and channels) or a frame slice of one, mirroring
  `frame_slice`; likewise for sortings.
* `json.loads` / `Path.is_file` / `json.load` are supplied as an oracle
  environment (`Env`), since they depend on the outside world.
* The seeded numpy generator `np.random.default_rng(seed=0).choice` is an
  external library call; it is modelled by an index-selection function
  `sel : ℕ → ℕ → List ℕ` (population size, sample size ↦ chosen indices)
  constrained by `SelSpec` (right length, no replacement, in range), the
  contract of `choice(..., replace=False)`.  numpy's explicit rejection of
  a negative sample size is modelled as a fatal error.
* File writes are modelled as an ordered list of (directory, file name,
  content) records; the bytes of a file are a deterministic function of the
  dumped value (`json.dump` with a fixed encoder), modelled by `render`.
-/

namespace Hybrid

/-- A JSON value, as produced by `json.loads` (objects appear only as the
top-level parameter dict, modelled separately by `ParamsDict`). -/
inductive JsonVal where
  | null
  | bool (b : Bool)
  | num (q : ℚ)
  | str (s : String)
deriving DecidableEq

/-- Python exceptions that the script can raise on the paths we model. -/
inductive PyErr where
  | typeError (msg : String)
  | valueError (msg : String)
  | jsonDecodeError
deriving DecidableEq

/-- Truthiness of a JSON value under Python `if`/`or`. -/
def pyTruthy : JsonVal → Bool
  | .null => false
  | .bool b => b
  | .num q => q != 0
  | .str s => s != ""

/-- Accumulate decimal digits; `none` on a non-digit. -/
def digitsToNatAux : List Char → ℕ → Option ℕ
  | [], acc => some acc
  | c :: rest, acc =>
      if c.isDigit then digitsToNatAux rest (acc * 10 + (c.toNat - 48)) else none

/-- Parse a non-empty all-digit string. -/
def digitsToNat : List Char → Option ℕ
  | [] => none
  | cs => digitsToNatAux cs 0

/-- Python `int(s)` on a string: optional sign followed by digits.
(Whitespace trimming and underscore separators of CPython are elided;
no caller in this development relies on them.) -/
def pyIntOfString (s : String) : Except PyErr ℤ :=
  let t := s.data
  let signRest : Bool × List Char :=
    match t with
    | '-' :: r => (true, r)
    | '+' :: r => (false, r)
    | _ => (false, t)
  match digitsToNat signRest.2 with
  | some n => .ok (if signRest.1 then -(n : ℤ) else (n : ℤ))
  | none => .error (.valueError ("invalid literal for int() with base 10: " ++ s))

/-- Parse a decimal literal `[sign]digits[.digits]` as a rational.
(Exponents and special values of CPython `float` are elided; no caller in
this development relies on them.) -/
def parseFloatString (s : String) : Option ℚ :=
  let t := s.data
  let signRest : Bool × List Char :=
    match t with
    | '-' :: r => (true, r)
    | '+' :: r => (false, r)
    | _ => (false, t)
  let intPart := signRest.2.takeWhile Char.isDigit
  let rest := signRest.2.dropWhile Char.isDigit
  let mag : Option ℚ :=
    match rest with
    | [] => (digitsToNat intPart).map (fun n => (n : ℚ))
    | '.' :: frac =>
        if frac.all Char.isDigit ∧ (intPart ≠ [] ∨ frac ≠ []) then
          let ip : ℕ := (digitsToNatAux intPart 0).getD 0
          let fp : ℕ := (digitsToNatAux frac 0).getD 0
          some ((ip : ℚ) + (fp : ℚ) / ((10 : ℚ) ^ frac.length))
        else none
    | _ => none
  mag.map (fun q => if signRest.1 then -q else q)

/-- Python `float(x)` applied to a JSON value. -/
def pyFloatVal : JsonVal → Except PyErr ℚ
  | .null => .error (.typeError "float() argument must be a string or a real number, not NoneType")
  | .bool b => .ok (if b then 1 else 0)
  | .num q => .ok q
  | .str s =>
      match parseFloatString s with
      | some q => .ok q
      | none => .error (.valueError ("could not convert string to float: " ++ s))

/-- Python `float(x)` where `x` may be `None` (`params.get` with no default). -/
def pyFloat : Option JsonVal → Except PyErr ℚ
  | none => .error (.typeError "float() argument must be a string or a real number, not NoneType")
  | some v => pyFloatVal v

/-- The parameter dict obtained from the `--params` JSON blob; each key is
present or absent, mirroring `params.get`. -/
structure ParamsDict where
  debug : Option JsonVal := none
  debug_duration : Option JsonVal := none
  max_recordings : Option JsonVal := none
deriving DecidableEq

/-- The argparse results (`src/code/run_capsule.py` lines 36–61).
String-valued options are `Option String` (Python `None` or a string);
`--debug-duration` has the non-string default `30`, so it is a `JsonVal`. -/
structure CliArgs where
  debugFlag : Bool := false
  staticDebug : Option String := none
  debugDurationOpt : JsonVal := .num 30
  staticDebugDuration : Option String := none
  maxRecordingsOpt : Option String := none
  staticMaxRecordings : Option String := none
  params : Option String := none

/-- The resolved run configuration (`DEBUG`, `DEBUG_DURATION`,
`MAX_RECORDINGS` after lines 64–90). `DEBUG` keeps its raw JSON value on
the params path (the script stores it unconverted into the job dict);
`MAX_RECORDINGS` keeps its raw JSON value on the params path and is
`some (.num i)` / `none` on the CLI path. -/
structure Config where
  debug : JsonVal
  debugDuration : ℚ
  maxRecordings : Option JsonVal
deriving DecidableEq

/-- Lines 76–78: the params-blob branch.  Note `params.get("debug_duration")`
has no default, so an absent (or null) key reaches `float(None)`. -/
def resolveFromParams (p : ParamsDict) : Except PyErr Config := do
  let dbg := p.debug.getD (.bool false)
  let dd ← pyFloat p.debug_duration
  pure { debug := dbg, debugDuration := dd, maxRecordings := p.max_recordings }

/-- Lines 80–83: `DEBUG` on the CLI branch — the positional, if truthy,
decides via `.lower() == "true"`, otherwise the `--debug` flag. -/
def cliDebug (args : CliArgs) : Bool :=
  match args.staticDebug with
  | some s => if s != "" then s.toLower == "true" else args.debugFlag
  | none => args.debugFlag

/-- Line 84, inner expression:
`args.static_debug_duration or args.debug_duration` (Python `or` takes the
first truthy operand). -/
def cliDebugDurationRaw (args : CliArgs) : JsonVal :=
  match args.staticDebugDuration with
  | some s => if s != "" then .str s else args.debugDurationOpt
  | none => args.debugDurationOpt

/-- Line 85: `args.static_max_recordings or args.max_recordings`. -/
def cliMaxRecordingsRaw (args : CliArgs) : Option String :=
  match args.staticMaxRecordings with
  | some s => if s != "" then some s else args.maxRecordingsOpt
  | none => args.maxRecordingsOpt

/-- Lines 86–90: `int(...)` conversion and the `-1 ↦ None` rule. -/
def cliMaxRecordings (args : CliArgs) : Except PyErr (Option JsonVal) :=
  match cliMaxRecordingsRaw args with
  | none => .ok none
  | some s =>
      (pyIntOfString s).map
        (fun i : ℤ => if i = -1 then none else some (.num ((i : ℚ))))

/-- Lines 80–90: the CLI branch (discrete options and positionals). -/
def resolveFromCli (args : CliArgs) : Except PyErr Config := do
  let dd ← pyFloatVal (cliDebugDurationRaw args)
  let mr ← cliMaxRecordings args
  pure { debug := .bool (cliDebug args), debugDuration := dd,
         maxRecordings := mr }

/-- Oracle for `json.loads`, `Path(...).is_file()` and `json.load(open(...))`.
`parseJson s = some p` means `s` is valid JSON denoting the object `p`;
`none` means `json.loads` raises `JSONDecodeError`.  `loadFile` is the parse
of the file's content. -/
structure Env where
  parseJson : String → Option ParamsDict
  isFile : String → Bool
  loadFile : String → Option ParamsDict

/-- Lines 64–90: full configuration resolution, including the
params-override branch with its JSON-string-then-file fallback. -/
def resolveConfig (env : Env) (args : CliArgs) : Except PyErr Config :=
  match args.params with
  | none => resolveFromCli args
  | some ps =>
      match env.parseJson ps with
      | some p => resolveFromParams p
      | none =>
          if env.isFile ps then
            match env.loadFile ps with
            | some p => resolveFromParams p
            | none => .error .jsonDecodeError
          else
            .error (.valueError ("Invalid parameters: " ++ ps ++
              " is not a valid JSON string or file path"))

/-- Python `int(q)` on a float: truncation toward zero. -/
def pyInt (q : ℚ) : ℤ := if q < 0 then ⌈q⌉ else ⌊q⌋

/-- `np.round(q, 2)`: round to 2 decimal places, ties to even. -/
def npRound2 (q : ℚ) : ℚ :=
  let y := 100 * q
  let f : ℤ := ⌊y⌋
  let r := y - (f : ℚ)
  let n : ℤ :=
    if r < 1 / 2 then f
    else if 1 / 2 < r then f + 1
    else if f % 2 = 0 then f else f + 1
  (n : ℚ) / 100

/-- Static attributes of a base (zarr-loaded) recording. -/
structure RecInfo where
  samplingFrequency : ℚ
  numSamples : ℕ
  numChannels : ℕ
deriving DecidableEq

/-- A spikeinterface recording object: a loaded base recording, or the
result of `frame_slice` on one.  The structure also serves as the
recursive relocatable representation produced by
`to_dict(recursive=True, ...)` (annotations are excluded by the script and
are not modelled; stored paths are relativized by the library and are
opaque here). -/
inductive Recording where
  | base (info : RecInfo)
  | frameSlice (parent : Recording) (startFrame endFrame : ℤ)
deriving DecidableEq

/-- `recording.sampling_frequency`: unchanged by `frame_slice`. -/
def Recording.samplingFrequency : Recording → ℚ
  | .base info => info.samplingFrequency
  | .frameSlice parent _ _ => parent.samplingFrequency

/-- `recording.get_num_samples()`. -/
def Recording.numSamples : Recording → ℕ
  | .base info => info.numSamples
  | .frameSlice _ s e => (e - s).toNat

/-- `recording.get_num_channels()`. -/
def Recording.numChannels : Recording → ℕ
  | .base info => info.numChannels
  | .frameSlice parent _ _ => parent.numChannels

/-- `recording.get_total_duration()` (single segment). -/
def Recording.totalDuration (r : Recording) : ℚ :=
  (r.numSamples : ℚ) / r.samplingFrequency

/-- A spikeinterface sorting object: the loaded ground truth (opaque
payload id) or a `frame_slice` of one. -/
inductive GtSorting where
  | base (payload : ℕ)
  | frameSlice (parent : GtSorting) (startFrame endFrame : ℤ)
deriving DecidableEq

/-- One `recording.zarr` folder found by the `os.walk` loop (lines
108–113), together with what the filesystem and the loader would answer
for it.  `path` is the folder's path as segments (last = `recording.zarr`);
`hasSortingSibling` is `(parent / "sorting.zarr").is_dir()`; `recInfo` and
`gt` are what `si.load` returns for the two siblings. -/
structure Candidate where
  path : List String
  hasSortingSibling : Bool
  recInfo : RecInfo
  gt : GtSorting
deriving DecidableEq

/-- `recording_zarr_folder.parents[1].name` (line 126). -/
def Candidate.sessionName (c : Candidate) : String :=
  (c.path.dropLast.dropLast).getLastD ""

/-- `recording_zarr_folder.parent.name` (line 127; bound to
`recording_name` in the script before the `__` concatenation). -/
def Candidate.caseName (c : Candidate) : String :=
  c.path.dropLast.getLastD ""

/-- Line 160: `f"{session_name}__{case_name}"` — the derived job name. -/
def derivedName (sessionName caseName : String) : String :=
  sessionName ++ "__" ++ caseName

/-- The job descriptor dict (lines 148–155, after the line-161 rename). -/
structure JobDict where
  session_name : String
  recording_name : String
  recording_dict : Recording
  duration : ℚ
  input_folder : String
  debug : JsonVal
deriving DecidableEq

/-- Content written to one output file. -/
inductive FileContent where
  | jobJson (j : JobDict)
  | gtJson (g : GtSorting)
deriving DecidableEq

/-- One file write: destination directory (under the results folder),
file name, dumped value. -/
structure FileWrite where
  dir : String
  name : String
  content : FileContent
deriving DecidableEq

/-- Serialization of a rational by the JSON encoder. -/
def renderQ (q : ℚ) : String :=
  toString q.num ++ "/" ++ toString q.den

/-- Serialization of a JSON value. -/
def renderJsonVal : JsonVal → String
  | .null => "null"
  | .bool b => if b then "true" else "false"
  | .num q => renderQ q
  | .str s => "\"" ++ s ++ "\""

/-- Serialization of the recursive recording representation. -/
def renderRecording : Recording → String
  | .base info =>
      "(rec " ++ renderQ info.samplingFrequency ++ " " ++
        toString info.numSamples ++ " " ++ toString info.numChannels ++ ")"
  | .frameSlice parent s e =>
      "(slice " ++ renderRecording parent ++ " " ++ toString s ++ " " ++
        toString e ++ ")"

/-- Serialization of a sorting. -/
def renderGtSorting : GtSorting → String
  | .base payload => "(sort " ++ toString payload ++ ")"
  | .frameSlice parent s e =>
      "(sortslice " ++ renderGtSorting parent ++ " " ++ toString s ++ " " ++
        toString e ++ ")"

/-- The bytes `json.dump(..., indent=4, cls=SIJsonEncoder)` /
`dump_to_json` produce for a written value: a fixed deterministic function
of the dumped value (the encoder is stateless). -/
def render : FileContent → String
  | .jobJson j =>
      "job(" ++ j.session_name ++ "," ++ j.recording_name ++ "," ++
        renderRecording j.recording_dict ++ "," ++ renderQ j.duration ++ "," ++
        j.input_folder ++ "," ++ renderJsonVal j.debug ++ ")"
  | .gtJson g => "gt(" ++ renderGtSorting g ++ ")"

/-- Result of the loop body for one candidate (lines 122–168): the job
dict, the frame-slice end frames actually passed (when debug is truthy),
the final recording/sorting objects, and the writes in program order. -/
structure PairOutput where
  jobDict : JobDict
  recEndFrame : Option ℤ
  sortEndFrame : Option ℤ
  recordingFinal : Recording
  sortingFinal : GtSorting
  writes : List FileWrite
deriving DecidableEq

/-- Lines 126–167: process one candidate that passed the sibling check.
Note the sorting's end frame is computed from the *already truncated*
recording (`recording` is rebound at line 132 before line 139 runs). -/
def processPair (cfg : Config) (c : Candidate) : PairOutput :=
  let sessionName := c.sessionName
  let caseName := c.caseName
  let recording0 : Recording := .base c.recInfo
  let gt0 : GtSorting := c.gt
  let res :
      Recording × GtSorting × ℚ × Option ℤ × Option ℤ :=
    if pyTruthy cfg.debug then
      let recEnd : ℤ :=
        min (pyInt (cfg.debugDuration * recording0.samplingFrequency))
          (recording0.numSamples : ℤ)
      let recording1 := Recording.frameSlice recording0 0 recEnd
      let duration := npRound2 recording1.totalDuration
      let sortEnd : ℤ :=
        min (pyInt (cfg.debugDuration * recording1.samplingFrequency))
          (recording1.numSamples : ℤ)
      let gt1 := GtSorting.frameSlice gt0 0 sortEnd
      (recording1, gt1, duration, some recEnd, some sortEnd)
    else
      (recording0, gt0, npRound2 recording0.totalDuration, none, none)
  let recordingFinal := res.1
  let gtFinal := res.2.1
  let duration := res.2.2.1
  let recName := derivedName sessionName caseName
  let jd : JobDict :=
    { session_name := sessionName
      recording_name := recName
      recording_dict := recordingFinal
      duration := duration
      input_folder := sessionName
      debug := cfg.debug }
  { jobDict := jd
    recEndFrame := res.2.2.2.1
    sortEndFrame := res.2.2.2.2
    recordingFinal := recordingFinal
    sortingFinal := gtFinal
    writes :=
      [ { dir := "recordings", name := "job_" ++ recName ++ ".json",
          content := .jobJson jd }
      , { dir := "flattened", name := "job_" ++ recName ++ ".json",
          content := .jobJson jd }
      , { dir := "flattened", name := "gt_" ++ recName ++ ".json",
          content := .gtJson gtFinal } ] }

/-- Lines 122–168: the generation loop over the (possibly subsampled)
folder list.  Returns the writes in program order and the final counter
`i`.  A candidate without a `sorting.zarr` sibling is skipped (line 125). -/
def genLoop (cfg : Config) : List Candidate → List FileWrite × ℕ
  | [] => ([], 0)
  | c :: rest =>
      let tail := genLoop cfg rest
      if c.hasSortingSibling then
        ((processPair cfg c).writes ++ tail.1, tail.2 + 1)
      else
        tail

/-- Contract of `np.random.default_rng(seed=0).choice(xs, size=k,
replace=False)` viewed as index selection: `sel n k` is the list of chosen
indices for a population of size `n`.  It is a fixed deterministic
function (the generator is freshly seeded with the constant 0), returning
`k` distinct in-range indices whenever `k ≤ n`. -/
def SelSpec (sel : ℕ → ℕ → List ℕ) : Prop :=
  ∀ n k, k ≤ n →
    (sel n k).length = k ∧ (sel n k).Nodup ∧ ∀ i ∈ sel n k, i < n

/-- Lines 117–120: the subsampling step.  The guard compares
`MAX_RECORDINGS` with the number of *discovered candidate folders* (the
sibling check has not run yet).  `choice` rejects a negative or
non-integral sample size. -/
def samplingStep (sel : ℕ → ℕ → List ℕ) (cfg : Config)
    (folders : List Candidate) : Except PyErr (List Candidate) :=
  match cfg.maxRecordings with
  | none => .ok folders
  | some (.num m) =>
      if m < (folders.length : ℚ) then
        if m < 0 then
          .error (.valueError "negative dimensions are not allowed")
        else if m.den ≠ 1 then
          .error (.typeError "cannot be interpreted as an integer")
        else
          .ok ((sel folders.length m.num.toNat).filterMap
            (fun i => folders[i]?))
      else .ok folders
  | some v =>
      .error (.typeError ("'<' not supported between instances: " ++
        renderJsonVal v))

/-- Outcome of a run: file writes in order, the reported count, and the
uncaught exception if one was raised (in which case nothing after it ran). -/
structure RunOutcome where
  writes : List FileWrite
  count : ℕ
  error : Option PyErr
deriving DecidableEq

/-- Subsampling followed by the generation loop (lines 114–169), for an
already resolved configuration. -/
def dispatchWithConfig (sel : ℕ → ℕ → List ℕ) (cfg : Config)
    (tree : List Candidate) : RunOutcome :=
  match samplingStep sel cfg tree with
  | .error e => { writes := [], count := 0, error := some e }
  | .ok folders =>
      let res := genLoop cfg folders
      { writes := res.1, count := res.2, error := none }

/-- The whole `__main__` body: configuration resolution (lines 64–90),
then discovery (modelled by the given candidate list in walk order),
subsampling and generation.  A configuration error aborts before anything
is written. -/
def runDispatch (env : Env) (sel : ℕ → ℕ → List ℕ) (args : CliArgs)
    (tree : List Candidate) : RunOutcome :=
  match resolveConfig env args with
  | .error e => { writes := [], count := 0, error := some e }
  | .ok cfg => dispatchWithConfig sel cfg tree

/-- Number of valid (recording, sorting) pairs among the discovered
candidates: those whose `sorting.zarr` sibling exists. -/
def validPairCount (tree : List Candidate) : ℕ :=
  (tree.filter (fun c => c.hasSortingSibling)).length

/-- Number of `job_*.json` writes into the recordings directory. -/
def recordingsJobWrites (o : RunOutcome) : ℕ :=
  (o.writes.filter (fun w => w.dir = "recordings")).length

/-- Number of *distinct* job file paths in the recordings directory:
what is left on disk after all writes, since a repeated name overwrites. -/
def distinctRecordingsJobFiles (ws : List FileWrite) : ℕ :=
  ((ws.filter (fun w => w.dir = "recordings")).map
    (fun w => w.name)).dedup.length

/-! ### Concrete instances used to evaluate the model -/

/-- A selection function satisfying the `choice` contract: take the first
`k` indices. -/
def selTake : ℕ → ℕ → List ℕ := fun _ k => List.range k

/-- Resolved configuration with a cap of 3. -/
def cfgMax3 : Config :=
  { debug := .bool false, debugDuration := 30, maxRecordings := some (.num 3) }

/-- Resolved configuration with no cap and debug off (the CLI defaults). -/
def cfgPlain : Config :=
  { debug := .bool false, debugDuration := 30, maxRecordings := none }

/-- Resolved configuration with debug on and the default 30 s window. -/
def cfgDebug30 : Config :=
  { debug := .bool true, debugDuration := 30, maxRecordings := none }

/-- Resolved configuration with debug on and a 30.25 s window. -/
def cfgDebugQuarter : Config :=
  { debug := .bool true, debugDuration := 121 / 4, maxRecordings := none }

/-- A typical ephys recording: 30 kHz, 900000 samples (30 s), 4 channels. -/
def stdRecInfo : RecInfo :=
  { samplingFrequency := 30000, numSamples := 900000, numChannels := 4 }

/-- A discovered candidate folder `../data/<session>/<caseName>/recording.zarr`
with the given sibling status. -/
def candAt (session caseName : String) (ok : Bool) : Candidate :=
  { path := ["..", "data", session, caseName, "recording.zarr"],
    hasSortingSibling := ok, recInfo := stdRecInfo, gt := .base 0 }

/-- 13 discovered candidates of which exactly the first 3 lack a sorting
sibling (so 10 valid pairs are discovered). -/
def tree13 : List Candidate :=
  (List.range 13).map (fun i => candAt "s" "c" (decide (3 ≤ i)))

/-- 10 discovered candidates, all with a sorting sibling. -/
def tree10 : List Candidate :=
  (List.range 10).map (fun _ => candAt "s" "c" true)

/-- Two valid candidates in distinct sessions. -/
def tree2 : List Candidate :=
  [candAt "s1" "c1" true, candAt "s2" "c2" true]

/-- Three valid candidates, the first two sharing session and case names. -/
def treeDup : List Candidate :=
  [candAt "s1" "c1" true, candAt "s1" "c1" true, candAt "s2" "c2" true]

/-- A valid candidate with a low sampling frequency (2 Hz) and 1000
samples (500 s). -/
def candLowFs : Candidate :=
  { path := ["..", "data", "s1", "c1", "recording.zarr"],
    hasSortingSibling := true,
    recInfo := { samplingFrequency := 2, numSamples := 1000, numChannels := 4 },
    gt := .base 0 }

/-- A params blob that omits `debug_duration`. -/
def pdNoDur : ParamsDict := { debug := some (.bool false) }

/-- A params blob with `max_recordings = -1`. -/
def pdNegOne : ParamsDict :=
  { debug := some (.bool false), debug_duration := some (.num 30),
    max_recordings := some (.num (-1)) }

/-- A params blob with `max_recordings` omitted (null/unlimited). -/
def pdNullMax : ParamsDict :=
  { debug := some (.bool false), debug_duration := some (.num 30),
    max_recordings := none }

/-- World in which the given `--params` string parses to `pdNoDur`. -/
def envNoDur : Env :=
  { parseJson := fun _ => some pdNoDur, isFile := fun _ => false,
    loadFile := fun _ => none }

/-- World in which the given `--params` string parses to `pdNegOne`. -/
def envNegOne : Env :=
  { parseJson := fun _ => some pdNegOne, isFile := fun _ => false,
    loadFile := fun _ => none }

/-- World in which the given `--params` string parses to `pdNullMax`. -/
def envNullMax : Env :=
  { parseJson := fun _ => some pdNullMax, isFile := fun _ => false,
    loadFile := fun _ => none }

/-- World in which the `--params` value is neither valid JSON nor a file. -/
def envBad : Env :=
  { parseJson := fun _ => none, isFile := fun _ => false,
    loadFile := fun _ => none }

/-- Arguments passing some `--params` string. -/
def argsParams : CliArgs := { params := some "blob" }

/-- Arguments with `--max-recordings -1` (discrete option path). -/
def argsCliNegOneOpt : CliArgs := { maxRecordingsOpt := some "-1" }

/-- Arguments with positional max recordings `-1`. -/
def argsCliNegOnePos : CliArgs := { staticMaxRecordings := some "-1" }

/-- Arguments with every option left at its argparse default. -/
def argsDefault : CliArgs := {}

/-- The configuration the params branch produces from `pdNegOne`. -/
def cfgNegOne : Config :=
  { debug := .bool false, debugDuration := 30,
    maxRecordings := some (.num (-1)) }

/-! ### The claims as stated, where a refutation is needed -/

/-- Claim C1 as stated: whenever 10 valid (recording, sorting) pairs are
discovered and `max_recordings = 3`, the run (for whatever selection
function the seeded generator realizes, as long as it satisfies the
sampling-without-replacement contract) reports exactly 3 generated jobs. -/
def C1Claim : Prop :=
  ∀ sel, SelSpec sel → ∀ tree : List Candidate, validPairCount tree = 10 →
    (dispatchWithConfig sel cfgMax3 tree).count = 3

/-- `true` iff the character list contains two consecutive underscores. -/
def hasDoubleUnderscore : List Char → Bool
  | [] => false
  | [_] => false
  | a :: b :: rest => (a == '_' && b == '_') || hasDoubleUnderscore (b :: rest)

/-- `true` iff the string contains the two-character separator `__`. -/
def strHasDoubleUnderscore (s : String) : Bool := hasDoubleUnderscore s.data

/-- `true` iff the string ends with an underscore. -/
def endsWithUnderscore (s : String) : Bool :=
  decide (s.data.getLast? = some '_')

/-- Claim C9 as stated: the derived name is injective on distinct
(session, case) pairs whose components do not contain `__`. -/
def C9Claim : Prop :=
  ∀ s1 c1 s2 c2 : String,
    strHasDoubleUnderscore s1 = false → strHasDoubleUnderscore c1 = false →
    strHasDoubleUnderscore s2 = false → strHasDoubleUnderscore c2 = false →
    (s1, c1) ≠ (s2, c2) → derivedName s1 c1 ≠ derivedName s2 c2

/-! ### Helper lemmas -/

/-- `selTake` satisfies the sampling contract. -/
theorem selTake_spec : SelSpec selTake := by
  intro n k hk
  simp only [selTake]
  refine ⟨List.length_range k, List.nodup_range k, ?_⟩
  intro i hi
  exact lt_of_lt_of_le (List.mem_range.1 hi) hk

/-- Looking up a list of in-range indices yields one element each. -/
theorem filterMap_getElem_length {α : Type} (l : List α) (idxs : List ℕ)
    (h : ∀ i ∈ idxs, i < l.length) :
    (idxs.filterMap (fun i => l[i]?)).length = idxs.length := by
  induction idxs with
  | nil => rfl
  | cons i is ih =>
      have hi : i < l.length := h i (List.mem_cons_self i is)
      rw [List.filterMap_cons, List.getElem?_eq_getElem hi]
      simp only [List.length_cons]
      rw [ih (fun j hj => h j (List.mem_cons_of_mem _ hj))]

/-- Elements produced by index lookup are elements of the list. -/
theorem mem_of_filterMap_getElem {α : Type} (l : List α) (idxs : List ℕ)
    (c : α) (hc : c ∈ idxs.filterMap (fun i => l[i]?)) : c ∈ l := by
  rw [List.mem_filterMap] at hc
  obtain ⟨i, _, hi⟩ := hc
  exact List.getElem?_mem hi

/-- The loop counter equals the number of processed candidates that have a
sorting sibling. -/
theorem genLoop_count (cfg : Config) (l : List Candidate) :
    (genLoop cfg l).2 = (l.filter (fun c => c.hasSortingSibling)).length := by
  induction l with
  | nil => rfl
  | cons c rest ih =>
      cases hc : c.hasSortingSibling <;> simp [genLoop, hc, ih]

/-- Exactly one of the three writes of a processed pair lands in the
recordings directory, carrying the derived job file name. -/
theorem processPair_recordings_names (cfg : Config) (c : Candidate) :
    (((processPair cfg c).writes.filter
        (fun w => w.dir = "recordings")).map (fun w => w.name))
      = ["job_" ++ derivedName c.sessionName c.caseName ++ ".json"] := rfl

/-- The job file names written to the recordings directory, in order. -/
theorem genLoop_recordings_names (cfg : Config) (l : List Candidate) :
    (((genLoop cfg l).1.filter (fun w => w.dir = "recordings")).map
        (fun w => w.name))
      = (l.filter (fun c => c.hasSortingSibling)).map
          (fun c => "job_" ++ derivedName c.sessionName c.caseName ++ ".json") := by
  induction l with
  | nil => rfl
  | cons c rest ih =>
      cases hc : c.hasSortingSibling
      · simp [genLoop, hc, ih]
      · simpa [genLoop, hc, List.filter_append, processPair_recordings_names]
          using ih

/-- Unfolding of the sampling step when the cap is a nonnegative integral
number smaller than the number of discovered candidates. -/
theorem samplingStep_num_lt (sel : ℕ → ℕ → List ℕ) (cfg : Config) (m : ℚ)
    (tree : List Candidate) (hm : cfg.maxRecordings = some (.num m))
    (hlt : m < (tree.length : ℚ)) (hpos : 0 ≤ m) (hden : m.den = 1) :
    samplingStep sel cfg tree =
      .ok ((sel tree.length m.num.toNat).filterMap (fun i => tree[i]?)) := by
  simp only [samplingStep, hm]
  rw [if_pos hlt, if_neg (not_lt.2 hpos), if_neg (by simp [hden])]

/-! ### Claim theorems -/

/-- Claim C2 (code bug): a params blob that omits `debug_duration` does not
fall back to the default of 30 seconds; `params.get("debug_duration")`
returns `None` and `float(None)` raises a `TypeError` during configuration
resolution. -/
theorem C2_missing_debug_duration_crashes :
    resolveConfig envNoDur argsParams =
      .error (.typeError
        "float() argument must be a string or a real number, not NoneType") := rfl

/-- Claim C6: when the `--params` value is neither valid JSON text nor an
existing file path, the run raises the descriptive `ValueError` during
configuration resolution; no file is written, and the outcome does not
depend on the discovered tree (the failure precedes discovery). -/
theorem C6_invalid_params_aborts (env : Env) (args : CliArgs) (ps : String)
    (sel : ℕ → ℕ → List ℕ) (tree : List Candidate)
    (h1 : args.params = some ps) (h2 : env.parseJson ps = none)
    (h3 : env.isFile ps = false) :
    runDispatch env sel args tree =
      { writes := [], count := 0,
        error := some (.valueError ("Invalid parameters: " ++ ps ++
          " is not a valid JSON string or file path")) }
    ∧ runDispatch env sel args tree = runDispatch env sel args [] := by
  simp [runDispatch, resolveConfig, h1, h2, h3]

/-- Witness for C6 at a concrete bad params string. -/
theorem C6_invalid_params_aborts_witness :
    argsParams.params = some "blob" ∧ envBad.parseJson "blob" = none ∧
    envBad.isFile "blob" = false ∧
    runDispatch envBad selTake argsParams tree2 =
      { writes := [], count := 0,
        error := some (.valueError ("Invalid parameters: " ++ "blob" ++
          " is not a valid JSON string or file path")) } :=
  ⟨rfl, rfl, rfl,
    (C6_invalid_params_aborts envBad argsParams "blob" selTake tree2
      rfl rfl rfl).1⟩

/-- Claim C7: subsampling is deterministic. The generator is freshly
seeded with the constant 0, so both runs realize the same selection
function `sel`; two successfully resolved runs with the same cap perform
the identical sampling step on the same tree, and fully equal
configurations give identical outcomes. -/
theorem C7_subsample_deterministic (sel : ℕ → ℕ → List ℕ)
    (env1 env2 : Env) (args1 args2 : CliArgs) (cfg1 cfg2 : Config)
    (tree : List Candidate)
    (h1 : resolveConfig env1 args1 = .ok cfg1)
    (h2 : resolveConfig env2 args2 = .ok cfg2)
    (hmax : cfg1.maxRecordings = cfg2.maxRecordings) :
    samplingStep sel cfg1 tree = samplingStep sel cfg2 tree
    ∧ (cfg1 = cfg2 →
        dispatchWithConfig sel cfg1 tree = dispatchWithConfig sel cfg2 tree) := by
  constructor
  · unfold samplingStep
    rw [hmax]
  · intro h
    rw [h]

/-- Witness for C7: two runs resolved from the same CLI defaults. -/
theorem C7_subsample_deterministic_witness :
    resolveConfig envBad argsDefault = .ok cfgPlain ∧
    cfgPlain.maxRecordings = cfgPlain.maxRecordings ∧
    samplingStep selTake cfgPlain tree2 = samplingStep selTake cfgPlain tree2 :=
  ⟨rfl, rfl,
    (C7_subsample_deterministic selTake envBad envBad argsDefault argsDefault
      cfgPlain cfgPlain tree2 rfl rfl rfl).1⟩

/-- Claim C8: for every processed pair, exactly three files are written;
the job descriptor written to the recordings directory and the copy
written to the flattened directory have the same file name, the same
dumped value, and (the encoder being a fixed function of that value)
byte-identical serialized content. -/
theorem C8_job_copies_identical (cfg : Config) (c : Candidate) :
    ∃ w1 w2 w3 : FileWrite, (processPair cfg c).writes = [w1, w2, w3]
      ∧ w1.dir = "recordings" ∧ w2.dir = "flattened"
      ∧ w1.name = "job_" ++ derivedName c.sessionName c.caseName ++ ".json"
      ∧ w2.name = w1.name
      ∧ w1.content = .jobJson (processPair cfg c).jobDict
      ∧ w2.content = w1.content
      ∧ render w1.content = render w2.content := by
  exact ⟨_, _, _, rfl, rfl, rfl, rfl, rfl, rfl, rfl, rfl⟩

/-- Claim C4: with debug truthy, the recording is truncated to
`[0, min(int(debug_duration * fs), num_samples))` and the sorting — whose
end frame is computed from the already-truncated recording — receives the
very same end frame, so the two sample ranges coincide. -/
theorem C4_truncation_ranges_identical (cfg : Config) (c : Candidate)
    (h : pyTruthy cfg.debug = true) :
    (processPair cfg c).recEndFrame =
      some (min (pyInt (cfg.debugDuration * c.recInfo.samplingFrequency))
        ((c.recInfo.numSamples : ℤ)))
    ∧ (processPair cfg c).sortEndFrame = (processPair cfg c).recEndFrame
    ∧ (processPair cfg c).recordingFinal =
        .frameSlice (.base c.recInfo) 0
          (min (pyInt (cfg.debugDuration * c.recInfo.samplingFrequency))
            ((c.recInfo.numSamples : ℤ)))
    ∧ (processPair cfg c).sortingFinal =
        .frameSlice c.gt 0
          (min (pyInt (cfg.debugDuration * c.recInfo.samplingFrequency))
            ((c.recInfo.numSamples : ℤ))) := by
  have key : ∀ (m : ℤ) (N : ℕ),
      min m ((((min m (N : ℤ)) - 0).toNat : ℤ)) = min m (N : ℤ) := by
    intro m N
    omega
  simp [processPair, h, Recording.samplingFrequency, Recording.numSamples, key]
  omega

/-- Witness for C4 at a concrete debug configuration and candidate. -/
theorem C4_truncation_ranges_identical_witness :
    pyTruthy cfgDebug30.debug = true ∧
    (processPair cfgDebug30 (candAt "s1" "c1" true)).sortEndFrame =
      (processPair cfgDebug30 (candAt "s1" "c1" true)).recEndFrame :=
  ⟨rfl, (C4_truncation_ranges_identical cfgDebug30 (candAt "s1" "c1" true)
    rfl).2.1⟩

/-- Claim C1 is false as stated: the script samples from *all* discovered
`recording.zarr` folders before the `sorting.zarr` sibling check runs, so
a tree with 10 valid pairs plus sibling-less candidates can yield fewer
than 3 job files.  Concretely, with `tree13` (10 valid pairs, 3 invalid
candidates first in walk order) and a selection function that takes the
first three indices, the run generates 0 jobs. -/
theorem C1_sampling_counterexample : ¬ C1Claim := by
  intro h
  exact absurd (h selTake selTake_spec tree13 (by decide)) (by decide)

/-- Claim C1 (amended): the subsampling step selects exactly
`max_recordings` folders from the discovered candidate folders (the guard
and the sample run before the sibling check); when every discovered
candidate has a sorting sibling — in particular for a tree of 10 valid
pairs and no sibling-less candidates, with `max_recordings = 3` — exactly
3 jobs are generated and exactly 3 job files land in the recordings
directory. -/
theorem C1_amended_sampling (sel : ℕ → ℕ → List ℕ) (hsel : SelSpec sel)
    (tree : List Candidate) (hall : ∀ c ∈ tree, c.hasSortingSibling = true)
    (hlen : tree.length = 10) :
    (dispatchWithConfig sel cfgMax3 tree).count = 3
    ∧ recordingsJobWrites (dispatchWithConfig sel cfgMax3 tree) = 3 := by
  obtain ⟨hlen3, hnodup, hbound⟩ := hsel tree.length 3 (by omega)
  have hstep : samplingStep sel cfgMax3 tree =
      .ok ((sel tree.length 3).filterMap (fun i => tree[i]?)) := by
    have h3 : ((3 : ℚ)).num.toNat = 3 := by decide
    rw [← h3]
    exact samplingStep_num_lt sel cfgMax3 3 tree rfl
      (by rw [hlen]; norm_num) (by norm_num) (by decide)
  have hslen : ((sel tree.length 3).filterMap (fun i => tree[i]?)).length = 3 := by
    rw [filterMap_getElem_length tree _ hbound]
    exact hlen3
  have hsall : ∀ c ∈ (sel tree.length 3).filterMap (fun i => tree[i]?),
      c.hasSortingSibling = true := by
    intro c hc
    exact hall c (mem_of_filterMap_getElem tree _ c hc)
  have hfilter : ((sel tree.length 3).filterMap (fun i => tree[i]?)).filter
        (fun c => c.hasSortingSibling)
      = (sel tree.length 3).filterMap (fun i => tree[i]?) :=
    List.filter_eq_self.2 hsall
  constructor
  · show (dispatchWithConfig sel cfgMax3 tree).count = 3
    simp only [dispatchWithConfig, hstep]
    rw [genLoop_count, hfilter, hslen]
  · show recordingsJobWrites (dispatchWithConfig sel cfgMax3 tree) = 3
    simp only [recordingsJobWrites, dispatchWithConfig, hstep]
    have hn := congrArg List.length
      (genLoop_recordings_names cfgMax3
        ((sel tree.length 3).filterMap (fun i => tree[i]?)))
    simp only [List.length_map] at hn
    rw [hn, hfilter, hslen]

/-- Witness for the amended C1: ten valid candidates, cap 3, first-three
selection — exactly 3 jobs. -/
theorem C1_amended_sampling_witness :
    SelSpec selTake ∧ (∀ c ∈ tree10, c.hasSortingSibling = true) ∧
    tree10.length = 10 ∧
    (dispatchWithConfig selTake cfgMax3 tree10).count = 3 :=
  ⟨selTake_spec, by decide, by decide,
    (C1_amended_sampling selTake selTake_spec tree10 (by decide)
      (by decide)).1⟩

/-- Claim C3 is false as stated: a params blob carrying
`max_recordings = -1` is not converted to null/unlimited (the conversion
exists only on the CLI branch).  With two valid discovered pairs, the
`-1 < 2` guard fires and `choice` with a negative size aborts the run with
zero jobs, while the same blob with `max_recordings` omitted processes
both pairs. -/
theorem C3_minus_one_counterexample :
    validPairCount tree2 = 2
    ∧ (runDispatch envNegOne selTake argsParams tree2).error =
        some (.valueError "negative dimensions are not allowed")
    ∧ (runDispatch envNegOne selTake argsParams tree2).count = 0
    ∧ (runDispatch envNegOne selTake argsParams tree2).writes = []
    ∧ (runDispatch envNullMax selTake argsParams tree2).count = 2
    ∧ (runDispatch envNullMax selTake argsParams tree2).error = none :=
  ⟨by decide, by decide, by decide, by decide, by decide, by decide⟩

/-- Claim C3 (amended): `-1` is treated as unlimited only on the CLI
paths (discrete option or positional argument), where the resolved cap
becomes `None` and the sampling step passes every discovered candidate
through; a params-blob value of `-1` is kept as `-1`, always triggers the
subsampling guard, and makes the run abort on the negative sample size
with nothing written. -/
theorem C3_minus_one_amended :
    (∀ (env : Env) (args : CliArgs) (cfg : Config),
      args.params = none →
      (args.staticMaxRecordings = some "-1" ∨
        (args.staticMaxRecordings = none ∧ args.maxRecordingsOpt = some "-1")) →
      resolveConfig env args = .ok cfg →
      cfg.maxRecordings = none ∧
        ∀ (sel : ℕ → ℕ → List ℕ) (tree : List Candidate),
          samplingStep sel cfg tree = .ok tree)
    ∧ (∀ (p : ParamsDict) (cfg : Config),
      p.max_recordings = some (.num (-1)) →
      resolveFromParams p = .ok cfg →
      cfg.maxRecordings = some (.num (-1)) ∧
        ∀ (sel : ℕ → ℕ → List ℕ) (tree : List Candidate),
          dispatchWithConfig sel cfg tree =
            { writes := [], count := 0,
              error := some (.valueError "negative dimensions are not allowed") }) := by
  constructor
  · intro env args cfg hp hcase hok
    have hcli : resolveFromCli args = .ok cfg := by
      unfold resolveConfig at hok
      rw [hp] at hok
      exact hok
    have hraw : cliMaxRecordingsRaw args = some "-1" := by
      rcases hcase with hs | ⟨hs, ho⟩
      · simp [cliMaxRecordingsRaw, hs]
      · simp [cliMaxRecordingsRaw, hs, ho]
    have hmr : cliMaxRecordings args = .ok none := by
      rw [cliMaxRecordings, hraw]
      rfl
    cases hdd : pyFloatVal (cliDebugDurationRaw args) with
    | error e => simp [resolveFromCli, hdd, bind, Except.bind] at hcli
    | ok dd =>
        simp only [resolveFromCli, hdd, hmr, bind, Except.bind, pure,
          Except.pure, Except.ok.injEq] at hcli
        refine ⟨by rw [← hcli], ?_⟩
        intro sel tree
        unfold samplingStep
        rw [← hcli]
  · intro p cfg hmr hok
    cases hdd : pyFloat p.debug_duration with
    | error e => simp [resolveFromParams, hdd] at hok
    | ok dd =>
        simp only [resolveFromParams, hdd, bind, Except.bind, pure,
          Except.pure, Except.ok.injEq] at hok
        have hcm : cfg.maxRecordings = some (.num (-1)) := by
          rw [← hok, hmr]
        refine ⟨hcm, ?_⟩
        intro sel tree
        have hlt : (-1 : ℚ) < (tree.length : ℚ) := by
          have h0 : (0 : ℚ) ≤ (tree.length : ℚ) := Nat.cast_nonneg _
          linarith
        simp only [dispatchWithConfig, samplingStep, hcm]
        rw [if_pos hlt, if_pos (by norm_num : (-1 : ℚ) < 0)]

/-- Witness for the amended C3 on both configuration paths. -/
theorem C3_minus_one_amended_witness :
    (argsCliNegOneOpt.params = none ∧
      resolveConfig envBad argsCliNegOneOpt = .ok cfgPlain ∧
      cfgPlain.maxRecordings = none ∧
      samplingStep selTake cfgPlain tree2 = .ok tree2)
    ∧ (pdNegOne.max_recordings = some (.num (-1)) ∧
      resolveFromParams pdNegOne = .ok cfgNegOne ∧
      dispatchWithConfig selTake cfgNegOne tree2 =
        { writes := [], count := 0,
          error := some (.valueError "negative dimensions are not allowed") }) :=
  ⟨⟨rfl, rfl,
    (C3_minus_one_amended.1 envBad argsCliNegOneOpt cfgPlain rfl
      (Or.inr ⟨rfl, rfl⟩) rfl).1,
    (C3_minus_one_amended.1 envBad argsCliNegOneOpt cfgPlain rfl
      (Or.inr ⟨rfl, rfl⟩) rfl).2 selTake tree2⟩,
   ⟨rfl, rfl,
    (C3_minus_one_amended.2 pdNegOne cfgNegOne rfl rfl).2 selTake tree2⟩⟩

/-- A list with a repeated element loses length under `dedup`. -/
theorem dedup_length_lt {α : Type} [DecidableEq α] (l : List α)
    (h : ¬ l.Nodup) : l.dedup.length < l.length := by
  have hsub := List.dedup_sublist l
  rcases lt_or_eq_of_le hsub.length_le with hlt | heq
  · exact hlt
  · exact absurd (hsub.eq_of_length heq ▸ List.nodup_dedup l) h

/-- Claim C10: the reported count is the number of processed candidates
with a `sorting.zarr` sibling — each increments the counter exactly once —
and not the number of distinct files on disk: the number of distinct job
file paths in the recordings directory never exceeds the count, and when
two processed pairs share both session and case name their job file names
coincide (the later write overwrites the earlier one), so strictly fewer
distinct files remain than the count reports. -/
theorem C10_count_vs_disk (sel : ℕ → ℕ → List ℕ) (cfg : Config)
    (tree folders : List Candidate)
    (hok : samplingStep sel cfg tree = .ok folders) :
    (dispatchWithConfig sel cfg tree).count =
      (folders.filter (fun c => c.hasSortingSibling)).length
    ∧ distinctRecordingsJobFiles (dispatchWithConfig sel cfg tree).writes ≤
        (dispatchWithConfig sel cfg tree).count
    ∧ (¬ ((folders.filter (fun c => c.hasSortingSibling)).map
          (fun c => (c.sessionName, c.caseName))).Nodup →
        distinctRecordingsJobFiles (dispatchWithConfig sel cfg tree).writes <
          (dispatchWithConfig sel cfg tree).count) := by
  simp only [dispatchWithConfig, hok]
  have hcount := genLoop_count cfg folders
  have hdist : distinctRecordingsJobFiles (genLoop cfg folders).1 =
      ((folders.filter (fun c => c.hasSortingSibling)).map
        (fun c => "job_" ++ derivedName c.sessionName c.caseName ++
          ".json")).dedup.length := by
    unfold distinctRecordingsJobFiles
    rw [genLoop_recordings_names cfg folders]
  refine ⟨hcount, ?_, ?_⟩
  · rw [hdist, hcount]
    have hle := (List.dedup_sublist
      ((folders.filter (fun c => c.hasSortingSibling)).map
        (fun c => "job_" ++ derivedName c.sessionName c.caseName ++
          ".json"))).length_le
    rw [List.length_map] at hle
    exact hle
  · intro hdup
    rw [hdist, hcount]
    have h1 : ¬ ((((folders.filter (fun c => c.hasSortingSibling)).map
        (fun c => (c.sessionName, c.caseName))).map
          (fun p => "job_" ++ derivedName p.1 p.2 ++ ".json")).Nodup) :=
      fun hn => hdup hn.of_map
    rw [List.map_map] at h1
    have h2 := dedup_length_lt _ h1
    rw [List.length_map] at h2
    exact h2

/-- Witness for C10: three valid candidates, the first two sharing session
and case names — the count reports 3 while only 2 distinct job files
remain. -/
theorem C10_count_vs_disk_witness :
    samplingStep selTake cfgPlain treeDup = .ok treeDup ∧
    ¬ ((treeDup.filter (fun c => c.hasSortingSibling)).map
        (fun c => (c.sessionName, c.caseName))).Nodup ∧
    distinctRecordingsJobFiles (dispatchWithConfig selTake cfgPlain treeDup).writes <
      (dispatchWithConfig selTake cfgPlain treeDup).count :=
  ⟨rfl, by decide,
    (C10_count_vs_disk selTake cfgPlain treeDup treeDup rfl).2.2 (by decide)⟩

/-- A double underscore in the tail of a clean list would appear in the
whole list. -/
theorem hasDU_tail {a : Char} {l : List Char}
    (h : hasDoubleUnderscore (a :: l) = false) :
    hasDoubleUnderscore l = false := by
  cases l with
  | nil => rfl
  | cons b t =>
      simp only [hasDoubleUnderscore, Bool.or_eq_false_iff] at h
      exact h.2

/-- The last element of a nonempty tail is the last element of the list. -/
theorem getLast?_tail {a : Char} {l : List Char}
    (h : (a :: l).getLast? ≠ some '_') : l.getLast? ≠ some '_' := by
  cases l with
  | nil => simp
  | cons b t => rwa [List.getLast?_cons_cons] at h

/-- Splitting at the reserved `__` separator is unambiguous provided the
left component neither contains `__` nor ends in `_`. -/
theorem sep_split_inj (s1 : List Char) :
    ∀ (s2 c1 c2 : List Char),
    hasDoubleUnderscore s1 = false → s1.getLast? ≠ some '_' →
    hasDoubleUnderscore s2 = false → s2.getLast? ≠ some '_' →
    s1 ++ '_' :: '_' :: c1 = s2 ++ '_' :: '_' :: c2 →
    s1 = s2 ∧ c1 = c2 := by
  induction s1 with
  | nil =>
      intro s2 c1 c2 _ _ hs2 he2 h
      cases s2 with
      | nil =>
          refine ⟨rfl, ?_⟩
          simpa using h
      | cons b t =>
          simp only [List.nil_append, List.cons_append, List.cons.injEq] at h
          obtain ⟨hb, h2⟩ := h
          cases t with
          | nil =>
              exfalso
              apply he2
              rw [← hb]
              rfl
          | cons b2 t2 =>
              simp only [List.cons_append, List.cons.injEq] at h2
              obtain ⟨hb2, _⟩ := h2
              exfalso
              rw [← hb, ← hb2] at hs2
              simp [hasDoubleUnderscore] at hs2
  | cons a s1' ih =>
      intro s2 c1 c2 hs1 he1 hs2 he2 h
      cases s2 with
      | nil =>
          simp only [List.cons_append, List.nil_append, List.cons.injEq] at h
          obtain ⟨ha, h2⟩ := h
          cases s1' with
          | nil =>
              exfalso
              apply he1
              rw [ha]
              rfl
          | cons a2 t2 =>
              simp only [List.cons_append, List.cons.injEq] at h2
              obtain ⟨ha2, _⟩ := h2
              exfalso
              rw [ha, ha2] at hs1
              simp [hasDoubleUnderscore] at hs1
      | cons b s2' =>
          simp only [List.cons_append, List.cons.injEq] at h
          obtain ⟨hab, h2⟩ := h
          obtain ⟨hh, hc⟩ := ih s2' c1 c2 (hasDU_tail hs1) (getLast?_tail he1)
            (hasDU_tail hs2) (getLast?_tail he2) h2
          exact ⟨by rw [hab, hh], hc⟩

/-- Claim C9 is false as stated: forbidding `__` inside the components is
not enough, because single underscores at the component boundary can
recreate the separator.  `("a_", "b")` and `("a", "_b")` are distinct
pairs, none of the four components contains `__`, yet both derive the name
`a___b`. -/
theorem C9_name_collision_counterexample : ¬ C9Claim := by
  intro h
  exact h "a_" "b" "a" "_b" (by decide) (by decide) (by decide) (by decide)
    (by decide) (by decide)

/-- Claim C9 (amended): the derived `recording_name` is injective on
distinct (session, case) pairs whose components do not contain the
reserved `__` separator, provided additionally that the session names do
not end with an underscore (which would let a leading underscore of the
case name recreate the separator at the boundary). -/
theorem C9_amended_name_injective (s1 c1 s2 c2 : String)
    (hs1 : strHasDoubleUnderscore s1 = false)
    (hc1 : strHasDoubleUnderscore c1 = false)
    (hs2 : strHasDoubleUnderscore s2 = false)
    (hc2 : strHasDoubleUnderscore c2 = false)
    (he1 : endsWithUnderscore s1 = false)
    (he2 : endsWithUnderscore s2 = false)
    (hne : (s1, c1) ≠ (s2, c2)) :
    derivedName s1 c1 ≠ derivedName s2 c2 := by
  intro heq
  apply hne
  have hdata : s1.data ++ '_' :: '_' :: c1.data =
      s2.data ++ '_' :: '_' :: c2.data := by
    have h0 := congrArg String.data heq
    simpa [derivedName] using h0
  obtain ⟨h1, h2⟩ := sep_split_inj s1.data s2.data c1.data c2.data hs1
    (of_decide_eq_false he1) hs2 (of_decide_eq_false he2) hdata
  rw [String.ext h1, String.ext h2]

/-- Witness for the amended C9 at concrete distinct pairs. -/
theorem C9_amended_name_injective_witness :
    strHasDoubleUnderscore "sess" = false ∧
    strHasDoubleUnderscore "c1" = false ∧
    strHasDoubleUnderscore "c2" = false ∧
    endsWithUnderscore "sess" = false ∧
    (("sess", "c1") : String × String) ≠ ("sess", "c2") ∧
    derivedName "sess" "c1" ≠ derivedName "sess" "c2" :=
  ⟨rfl, rfl, rfl, rfl, by decide,
    C9_amended_name_injective "sess" "c1" "sess" "c2" rfl rfl rfl rfl rfl rfl
      (by decide)⟩

/-- Rounding to two decimals moves a value by at most `1/200`. -/
theorem npRound2_sub_abs_le (q : ℚ) : |npRound2 q - q| ≤ 1 / 200 := by
  set y : ℚ := 100 * q with hy
  have h0 : (0 : ℚ) ≤ y - (⌊y⌋ : ℚ) := sub_nonneg.2 (Int.floor_le y)
  have h1 : y - (⌊y⌋ : ℚ) < 1 := by
    have := Int.lt_floor_add_one y
    linarith
  have key : ∀ n : ℤ, |(n : ℚ) - y| ≤ 1 / 2 → |(n : ℚ) / 100 - q| ≤ 1 / 200 := by
    intro n hn
    have hq : q = y / 100 := by
      rw [hy]
      ring
    rw [hq, div_sub_div_same, abs_div, abs_of_pos (by norm_num : (0 : ℚ) < 100)]
    calc |(n : ℚ) - y| / 100 ≤ (1 / 2) / 100 := by gcongr
      _ = 1 / 200 := by norm_num
  simp only [npRound2, ← hy]
  split_ifs with hlt hgt heven
  · refine key _ ?_
    rw [abs_sub_comm, abs_of_nonneg h0]
    linarith
  · refine key _ ?_
    push_cast
    rw [abs_of_nonneg (by linarith)]
    linarith
  · have hr : y - (⌊y⌋ : ℚ) = 1 / 2 := le_antisymm (not_lt.1 hgt) (not_lt.1 hlt)
    refine key _ ?_
    rw [abs_sub_comm, abs_of_nonneg h0]
    linarith
  · have hr : y - (⌊y⌋ : ℚ) = 1 / 2 := le_antisymm (not_lt.1 hgt) (not_lt.1 hlt)
    refine key _ ?_
    push_cast
    rw [abs_of_nonneg (by linarith)]
    linarith

/-- Rounding an integer value is the identity. -/
theorem npRound2_int (q : ℚ) (n : ℤ) (h : q = (n : ℚ)) :
    npRound2 q = (n : ℚ) := by
  subst h
  have h1 : ((100 : ℚ) * (n : ℚ)) = ((100 * n : ℤ) : ℚ) := by
    push_cast
    ring
  simp only [npRound2, h1, Int.floor_intCast, sub_self]
  rw [if_pos (by norm_num : (0 : ℚ) < 1 / 2)]
  push_cast
  ring

/-- `int()` of a nonnegative float is its floor. -/
theorem pyInt_of_nonneg (q : ℚ) (h : 0 ≤ q) : pyInt q = ⌊q⌋ := by
  unfold pyInt
  rw [if_neg (not_lt.2 h)]

/-- The emitted duration in debug mode, as a closed formula. -/
theorem processPair_duration_debug (cfg : Config) (c : Candidate)
    (h : pyTruthy cfg.debug = true) :
    (processPair cfg c).jobDict.duration =
      npRound2 ((((min (pyInt (cfg.debugDuration * c.recInfo.samplingFrequency))
        ((c.recInfo.numSamples : ℤ))) - 0).toNat : ℚ) /
          c.recInfo.samplingFrequency) := by
  simp [processPair, h, Recording.totalDuration, Recording.numSamples,
    Recording.samplingFrequency]

/-- The truncated recording in debug mode, as a closed formula. -/
theorem processPair_recordingFinal_debug (cfg : Config) (c : Candidate)
    (h : pyTruthy cfg.debug = true) :
    (processPair cfg c).recordingFinal =
      .frameSlice (.base c.recInfo) 0
        (min (pyInt (cfg.debugDuration * c.recInfo.samplingFrequency))
          ((c.recInfo.numSamples : ℤ))) := by
  simp [processPair, h, Recording.samplingFrequency, Recording.numSamples]

/-- Claim C5 is false as stated: the emitted duration is quantized to
whole samples, so for low sampling frequencies it can differ from
`min(d, full_duration)` by far more than 0.01 s.  With `fs = 2 Hz`,
1000 samples (500 s) and `d = 30.25`, the truncation keeps
`⌊30.25·2⌋ = 60` samples, the emitted duration is `30.0`, and the gap to
`min(30.25, 500) = 30.25` is `0.25 > 0.01`. -/
theorem C5_tolerance_counterexample :
    pyTruthy cfgDebugQuarter.debug = true
    ∧ (processPair cfgDebugQuarter candLowFs).jobDict.duration = 30
    ∧ min cfgDebugQuarter.debugDuration
        ((candLowFs.recInfo.numSamples : ℚ) /
          candLowFs.recInfo.samplingFrequency) = 121 / 4
    ∧ ¬ (|(processPair cfgDebugQuarter candLowFs).jobDict.duration -
          min cfgDebugQuarter.debugDuration
            ((candLowFs.recInfo.numSamples : ℚ) /
              candLowFs.recInfo.samplingFrequency)| ≤ 1 / 100) := by
  have he : min (pyInt (cfgDebugQuarter.debugDuration *
      candLowFs.recInfo.samplingFrequency))
      ((candLowFs.recInfo.numSamples : ℤ)) = 60 := by
    have harg : cfgDebugQuarter.debugDuration *
        candLowFs.recInfo.samplingFrequency = (121 / 2 : ℚ) := by
      norm_num [cfgDebugQuarter, candLowFs]
    rw [harg, pyInt_of_nonneg _ (by norm_num)]
    have hfl : ⌊(121 / 2 : ℚ)⌋ = 60 := by
      rw [Int.floor_eq_iff]
      norm_num
    rw [hfl]
    norm_num [candLowFs]
  have hdur : (processPair cfgDebugQuarter candLowFs).jobDict.duration = 30 := by
    rw [processPair_duration_debug cfgDebugQuarter candLowFs rfl, he]
    have harg2 : ((((60 : ℤ) - 0).toNat : ℚ) /
        candLowFs.recInfo.samplingFrequency) = ((30 : ℤ) : ℚ) := by
      have h1 : ((60 : ℤ) - 0).toNat = (60 : ℕ) := rfl
      rw [h1]
      norm_num [candLowFs]
    have h2 := npRound2_int _ 30 harg2
    exact_mod_cast h2
  have hmin : min cfgDebugQuarter.debugDuration
      ((candLowFs.recInfo.numSamples : ℚ) /
        candLowFs.recInfo.samplingFrequency) = 121 / 4 := by
    norm_num [cfgDebugQuarter, candLowFs, min_def]
  refine ⟨rfl, hdur, hmin, ?_⟩
  rw [hdur, hmin]
  intro habs
  rw [show (30 : ℚ) - 121 / 4 = -(1 / 4) by norm_num, abs_neg,
    abs_of_nonneg (by norm_num : (0 : ℚ) ≤ 1 / 4)] at habs
  norm_num at habs

/-- Claim C5 (amended): with debug truthy, a nonnegative window `d` and a
sampling frequency of at least 200 Hz, the emitted duration equals
`min(d, full_duration)` within 0.01 s (in general the truncation
granularity is one sample, `1/fs`, plus up to 0.005 from rounding); the
truncation end frame always lies in `[0, num_samples]`, so the
`frame_slice` precondition holds and no error occurs, and when `d` is at
least the full duration the full untruncated sample count is kept. -/
theorem C5_amended_duration (cfg : Config) (c : Candidate)
    (h : pyTruthy cfg.debug = true)
    (hd : 0 ≤ cfg.debugDuration)
    (hfs : 200 ≤ c.recInfo.samplingFrequency) :
    |(processPair cfg c).jobDict.duration -
        min cfg.debugDuration
          ((c.recInfo.numSamples : ℚ) / c.recInfo.samplingFrequency)| ≤ 1 / 100
    ∧ (0 : ℤ) ≤ min (pyInt (cfg.debugDuration * c.recInfo.samplingFrequency))
        ((c.recInfo.numSamples : ℤ))
    ∧ min (pyInt (cfg.debugDuration * c.recInfo.samplingFrequency))
        ((c.recInfo.numSamples : ℤ)) ≤ (c.recInfo.numSamples : ℤ)
    ∧ ((c.recInfo.numSamples : ℚ) / c.recInfo.samplingFrequency ≤
          cfg.debugDuration →
        (processPair cfg c).recordingFinal.numSamples =
          c.recInfo.numSamples) := by
  set d := cfg.debugDuration with hd_def
  set fs := c.recInfo.samplingFrequency with hfs_def
  set N := c.recInfo.numSamples with hN_def
  have hfs0 : (0 : ℚ) < fs := lt_of_lt_of_le (by norm_num) hfs
  have hdf : (0 : ℚ) ≤ d * fs := mul_nonneg hd (le_of_lt hfs0)
  have hpi : pyInt (d * fs) = ⌊d * fs⌋ := pyInt_of_nonneg _ hdf
  have hm0 : (0 : ℤ) ≤ ⌊d * fs⌋ := Int.floor_nonneg.2 hdf
  have he0 : (0 : ℤ) ≤ min ⌊d * fs⌋ (N : ℤ) :=
    le_min hm0 (Int.natCast_nonneg N)
  have heN : min ⌊d * fs⌋ (N : ℤ) ≤ (N : ℤ) := min_le_right _ _
  have hfsle : 1 / fs ≤ 1 / 200 :=
    one_div_le_one_div_of_le (by norm_num) hfs
  have hsub : (((min ⌊d * fs⌋ (N : ℤ) - 0).toNat : ℚ)) =
      ((min ⌊d * fs⌋ (N : ℤ) : ℤ) : ℚ) := by
    rw [sub_zero]
    exact_mod_cast congrArg (Int.cast : ℤ → ℚ)
      (Int.toNat_of_nonneg he0)
  have hdur : (processPair cfg c).jobDict.duration =
      npRound2 (((min ⌊d * fs⌋ (N : ℤ) : ℤ) : ℚ) / fs) := by
    rw [processPair_duration_debug cfg c h, hpi, hsub]
  have hround := npRound2_sub_abs_le (((min ⌊d * fs⌋ (N : ℤ) : ℤ) : ℚ) / fs)
  have hxt : |(((min ⌊d * fs⌋ (N : ℤ) : ℤ) : ℚ) / fs) -
      min d ((N : ℚ) / fs)| ≤ 1 / 200 := by
    rcases le_or_lt (d * fs) ((N : ℚ)) with hcase | hcase
    · have hmN : ⌊d * fs⌋ ≤ (N : ℤ) := by
        have hmono := Int.floor_le_floor hcase
        rwa [Int.floor_natCast] at hmono
      have hem : min ⌊d * fs⌋ (N : ℤ) = ⌊d * fs⌋ := min_eq_left hmN
      have hmind : min d ((N : ℚ) / fs) = d :=
        min_eq_left ((le_div_iff hfs0).2 hcase)
      rw [hem, hmind]
      have hfl : ((⌊d * fs⌋ : ℤ) : ℚ) ≤ d * fs := Int.floor_le _
      have hfl2 : d * fs < ((⌊d * fs⌋ : ℤ) : ℚ) + 1 := Int.lt_floor_add_one _
      have hle : ((⌊d * fs⌋ : ℤ) : ℚ) / fs ≤ d := (div_le_iff hfs0).2 hfl
      have hge : d - ((⌊d * fs⌋ : ℤ) : ℚ) / fs ≤ 1 / fs := by
        refine (le_div_iff hfs0).2 ?_
        have hexp : (d - ((⌊d * fs⌋ : ℤ) : ℚ) / fs) * fs =
            d * fs - ((⌊d * fs⌋ : ℤ) : ℚ) := by
          field_simp
        rw [hexp]
        linarith
      rw [abs_sub_comm, abs_of_nonneg (by linarith)]
      linarith
    · have hNm : (N : ℤ) ≤ ⌊d * fs⌋ :=
        Int.le_floor.2 (by exact_mod_cast le_of_lt hcase)
      have hem : min ⌊d * fs⌋ (N : ℤ) = (N : ℤ) := min_eq_right hNm
      have hmind : min d ((N : ℚ) / fs) = (N : ℚ) / fs :=
        min_eq_right ((div_le_iff hfs0).2 (le_of_lt hcase))
      rw [hem, hmind]
      simp
  refine ⟨?_, hpi ▸ he0, hpi ▸ heN, ?_⟩
  · rw [hdur]
    have trig := abs_sub_le (npRound2 (((min ⌊d * fs⌋ (N : ℤ) : ℤ) : ℚ) / fs))
      (((min ⌊d * fs⌋ (N : ℤ) : ℤ) : ℚ) / fs) (min d ((N : ℚ) / fs))
    linarith
  · intro hNd
    rw [processPair_recordingFinal_debug cfg c h]
    have hNm : (N : ℤ) ≤ ⌊d * fs⌋ :=
      Int.le_floor.2 (by exact_mod_cast (div_le_iff hfs0).1 hNd)
    simp only [Recording.numSamples, hpi]
    omega

/-- Witness for the amended C5 at a typical 30 kHz recording. -/
theorem C5_amended_duration_witness :
    pyTruthy cfgDebug30.debug = true ∧ (0 : ℚ) ≤ cfgDebug30.debugDuration ∧
    (200 : ℚ) ≤ (candAt "s1" "c1" true).recInfo.samplingFrequency ∧
    |(processPair cfgDebug30 (candAt "s1" "c1" true)).jobDict.duration -
        min cfgDebug30.debugDuration
          (((candAt "s1" "c1" true).recInfo.numSamples : ℚ) /
            (candAt "s1" "c1" true).recInfo.samplingFrequency)| ≤ 1 / 100 :=
  ⟨rfl, by decide, by decide,
    (C5_amended_duration cfgDebug30 (candAt "s1" "c1" true) rfl (by decide)
      (by decide)).1⟩

/-- The refutation of C1 does not depend on which selection function the
seeded generator realizes: for every selection function satisfying the
without-replacement contract there is a tree with exactly 10 valid pairs
(and 3 sibling-less candidates, placed where that selection picks) on
which the capped run generates 0 jobs instead of 3. -/
theorem every_selection_has_a_bad_tree (sel : ℕ → ℕ → List ℕ)
    (hsel : SelSpec sel) :
    ∃ tree : List Candidate, validPairCount tree = 10 ∧
      (dispatchWithConfig sel cfgMax3 tree).count = 0 := by
  obtain ⟨hlen3, hnodup, hbound⟩ := hsel 13 3 (by norm_num)
  refine ⟨(List.range 13).map
    (fun i => candAt "s" "c" (decide (i ∉ sel 13 3))), ?_, ?_⟩
  · unfold validPairCount
    rw [List.filter_map, List.length_map]
    have hpred : ((fun c => c.hasSortingSibling) ∘
        (fun i => candAt "s" "c" (decide (i ∉ sel 13 3))))
        = (fun i => decide (i ∉ sel 13 3)) := by
      funext i
      rfl
    rw [hpred]
    have hperm := List.filter_append_perm
      (fun i => decide (i ∈ sel 13 3)) (List.range 13)
    have hsplit := hperm.length_eq
    rw [List.length_append, List.length_range] at hsplit
    have hmemlen : ((List.range 13).filter
        (fun i => decide (i ∈ sel 13 3))).length = 3 := by
      have hnd1 : ((List.range 13).filter
          (fun i => decide (i ∈ sel 13 3))).Nodup :=
        (List.nodup_range 13).filter _
      have hmm : ∀ a, (a ∈ (List.range 13).filter
          (fun i => decide (i ∈ sel 13 3))) ↔ a ∈ sel 13 3 := by
        intro a
        simp only [List.mem_filter, List.mem_range, decide_eq_true_eq]
        exact ⟨fun hx => hx.2, fun hx => ⟨hbound a hx, hx⟩⟩
      have hp : List.Perm ((List.range 13).filter
          (fun i => decide (i ∈ sel 13 3))) (sel 13 3) := by
        rw [List.perm_ext_iff_of_nodup hnd1 hnodup]
        exact hmm
      rw [hp.length_eq, hlen3]
    have hnotpred : (fun i => !(decide (i ∈ sel 13 3)))
        = (fun i => decide (i ∉ sel 13 3)) := by
      funext i
      simp [decide_not]
    rw [hnotpred] at hsplit
    omega
  · have hstep : samplingStep sel cfgMax3 ((List.range 13).map
        (fun i => candAt "s" "c" (decide (i ∉ sel 13 3)))) =
        .ok ((sel 13 3).filterMap (fun i => (((List.range 13).map
          (fun i => candAt "s" "c" (decide (i ∉ sel 13 3))))[i]?))) := by
      have hwork := samplingStep_num_lt sel cfgMax3 3 ((List.range 13).map
        (fun i => candAt "s" "c" (decide (i ∉ sel 13 3)))) rfl
        (by simp [List.length_map, List.length_range]; norm_num)
        (by norm_num) (by decide)
      simpa [List.length_map, List.length_range,
        show ((3 : ℚ)).num.toNat = 3 from by decide] using hwork
    simp only [dispatchWithConfig, hstep]
    rw [genLoop_count]
    have hnone : ((sel 13 3).filterMap (fun i => (((List.range 13).map
        (fun i => candAt "s" "c" (decide (i ∉ sel 13 3))))[i]?))).filter
        (fun c => c.hasSortingSibling) = [] := by
      rw [List.filter_eq_nil_iff]
      intro c hc
      rw [List.mem_filterMap] at hc
      obtain ⟨i, hiS, hget⟩ := hc
      have hi13 : i < 13 := hbound i hiS
      rw [List.getElem?_map, List.getElem?_range hi13] at hget
      simp only [Option.map_some', Option.some.injEq] at hget
      rw [← hget]
      simp [candAt, hiS]
    rw [hnone]
    rfl

end Hybrid
